import Mathlib

/-!
Verification of the ScapeGraph MCP server (`src/scrapegraph_mcp/server.py`).

The development shallowly embeds the server's data model and operations:

* `Json` models Python's JSON-compatible values; `json_loads` models
  `json.loads` (returning `none` where Python raises `JSONDecodeError`).
* `ScapeGraphClient.*` functions model the client methods: each builds the
  request body exactly as the Python code does, issues the request through an
  abstract HTTP oracle, and converts the response the way the code does
  (`!= 200` check, or httpx `raise_for_status`).
* The top-level tool functions (`markdownify`, `smartscraper`, ...) model the
  `@mcp.tool()` wrappers, including the `try/except` conversion of raised
  errors into `{"error": ...}` dictionaries, and record an event trace
  (client creation, network calls, client shutdown) used to state the
  resource-lifecycle and no-network-call properties.
-/

/-- JSON-compatible values as produced by Python's `json` module.  Non-integral
numbers are kept as their raw source text (`fnum`); no claim depends on float
arithmetic.  Objects are insertion-ordered key/value lists, matching Python
dict semantics for the bodies built by the server (each key is set once). -/
inductive Json where
  | null
  | bool (b : Bool)
  | num (n : Int)
  | fnum (raw : String)
  | str (s : String)
  | arr (elems : List Json)
  | obj (fields : List (String × Json))

/-- JSON whitespace accepted by Python's strict decoder. -/
def jsonWs (c : Char) : Bool := c = ' ' || c = '\t' || c = '\n' || c = '\r'

/-- Drop leading JSON whitespace. -/
def skipWs : List Char → List Char
  | [] => []
  | c :: cs => if jsonWs c then skipWs cs else c :: cs

/-- Value of a hexadecimal digit, if any. -/
def hexVal (c : Char) : Option Nat :=
  if c.isDigit then some (c.toNat - '0'.toNat)
  else if 'a' ≤ c ∧ c ≤ 'f' then some (c.toNat - 'a'.toNat + 10)
  else if 'A' ≤ c ∧ c ≤ 'F' then some (c.toNat - 'A'.toNat + 10)
  else none

/-- Single-character string escapes of the JSON grammar. -/
def escChar : Char → Option Char
  | '"' => some '"'
  | '\\' => some '\\'
  | '/' => some '/'
  | 'b' => some (Char.ofNat 8)
  | 'f' => some (Char.ofNat 12)
  | 'n' => some '\n'
  | 'r' => some '\r'
  | 't' => some '\t'
  | _ => none

/-- Parse the body of a JSON string after the opening quote, in Python's
strict mode (unescaped control characters are rejected).  Fuel bounds the
recursion; a fuel of one more than the input length always suffices since
every step consumes at least one character. -/
def parseStringBody : Nat → List Char → Option (String × List Char)
  | 0, _ => none
  | _ + 1, [] => none
  | fuel + 1, c :: cs =>
    if c = '"' then some ("", cs)
    else if c = '\\' then
      match cs with
      | 'u' :: h1 :: h2 :: h3 :: h4 :: cs2 =>
        match hexVal h1, hexVal h2, hexVal h3, hexVal h4 with
        | some a, some b, some c3, some d =>
          match parseStringBody fuel cs2 with
          | some (rest, rem) => some (String.mk (Char.ofNat (((a * 16 + b) * 16 + c3) * 16 + d) :: rest.toList), rem)
          | none => none
        | _, _, _, _ => none
      | e :: cs2 =>
        match escChar e with
        | some ec =>
          match parseStringBody fuel cs2 with
          | some (rest, rem) => some (String.mk (ec :: rest.toList), rem)
          | none => none
        | none => none
      | [] => none
    else if c.toNat < 32 then none
    else
      match parseStringBody fuel cs with
      | some (rest, rem) => some (String.mk (c :: rest.toList), rem)
      | none => none

/-- Longest prefix of decimal digits. -/
def spanDigits : List Char → List Char × List Char
  | [] => ([], [])
  | c :: cs =>
    if c.isDigit then
      let (d, r) := spanDigits cs
      (c :: d, r)
    else ([], c :: cs)

/-- Integer value of a digit string, with sign. -/
def intOfDigits (neg : Bool) (ds : List Char) : Int :=
  let n : Nat := ds.foldl (fun a c => a * 10 + (c.toNat - '0'.toNat)) 0
  if neg then -(n : Int) else (n : Int)

/-- Optional fraction part of a JSON number (a dot must be followed by at
least one digit). -/
def parseFrac : List Char → Option (List Char × List Char)
  | '.' :: r =>
    let (fd, r2) := spanDigits r
    if fd.isEmpty then none else some ('.' :: fd, r2)
  | cs => some ([], cs)

/-- Optional exponent part of a JSON number. -/
def parseExp : List Char → Option (List Char × List Char)
  | [] => some ([], [])
  | c :: r =>
    if c = 'e' ∨ c = 'E' then
      let (sgn, r1) : List Char × List Char :=
        match r with
        | s :: r2 => if s = '+' ∨ s = '-' then ([s], r2) else ([], s :: r2)
        | [] => ([], [])
      let (ed, r3) := spanDigits r1
      if ed.isEmpty then none else some (c :: (sgn ++ ed), r3)
    else some ([], c :: r)

/-- Parse a JSON number (the grammar of Python's strict decoder: no leading
zeros, no bare dot).  Integral numbers become `Json.num`, others keep their
source text as `Json.fnum`. -/
def parseNumber (cs : List Char) : Option (Json × List Char) :=
  let (negChars, cs1) : List Char × List Char :=
    match cs with
    | '-' :: r => (['-'], r)
    | _ => ([], cs)
  let (ints, cs2) := spanDigits cs1
  match ints with
  | [] => none
  | d :: ds =>
    if d = '0' ∧ ds ≠ [] then none
    else
      match parseFrac cs2 with
      | none => none
      | some (fracChars, cs3) =>
        match parseExp cs3 with
        | none => none
        | some (expChars, cs4) =>
          if fracChars.isEmpty ∧ expChars.isEmpty then
            some (Json.num (intOfDigits (negChars ≠ []) ints), cs4)
          else
            some (Json.fnum (String.mk (negChars ++ ints ++ fracChars ++ expChars)), cs4)

mutual

/-- Parse one JSON value (model of the value grammar accepted by
`json.loads`, including Python's `NaN`/`Infinity` extensions). -/
def parseValue : Nat → List Char → Option (Json × List Char)
  | 0, _ => none
  | fuel + 1, cs0 =>
    match skipWs cs0 with
    | [] => none
    | '{' :: rest =>
      (match skipWs rest with
       | '}' :: rest2 => some (Json.obj [], rest2)
       | rest2 =>
         match parseMembers fuel rest2 with
         | some (fields, rest3) => some (Json.obj fields, rest3)
         | none => none)
    | '[' :: rest =>
      (match skipWs rest with
       | ']' :: rest2 => some (Json.arr [], rest2)
       | rest2 =>
         match parseElements fuel rest2 with
         | some (elems, rest3) => some (Json.arr elems, rest3)
         | none => none)
    | '"' :: rest =>
      (match parseStringBody (rest.length + 1) rest with
       | some (s, rest2) => some (Json.str s, rest2)
       | none => none)
    | 't' :: 'r' :: 'u' :: 'e' :: rest => some (Json.bool true, rest)
    | 'f' :: 'a' :: 'l' :: 's' :: 'e' :: rest => some (Json.bool false, rest)
    | 'n' :: 'u' :: 'l' :: 'l' :: rest => some (Json.null, rest)
    | 'N' :: 'a' :: 'N' :: rest => some (Json.fnum "NaN", rest)
    | 'I' :: 'n' :: 'f' :: 'i' :: 'n' :: 'i' :: 't' :: 'y' :: rest => some (Json.fnum "Infinity", rest)
    | '-' :: 'I' :: 'n' :: 'f' :: 'i' :: 'n' :: 'i' :: 't' :: 'y' :: rest => some (Json.fnum "-Infinity", rest)
    | cs => parseNumber cs

/-- Parse the members of a JSON object after the opening brace (nonempty
case). -/
def parseMembers : Nat → List Char → Option (List (String × Json) × List Char)
  | 0, _ => none
  | fuel + 1, cs =>
    match skipWs cs with
    | '"' :: rest =>
      (match parseStringBody (rest.length + 1) rest with
       | some (key, rest2) =>
         (match skipWs rest2 with
          | ':' :: rest3 =>
            (match parseValue fuel rest3 with
             | some (v, rest4) =>
               (match skipWs rest4 with
                | ',' :: rest5 =>
                  (match parseMembers fuel rest5 with
                   | some (fields, rest6) => some ((key, v) :: fields, rest6)
                   | none => none)
                | '}' :: rest5 => some ([(key, v)], rest5)
                | _ => none)
             | none => none)
          | _ => none)
       | none => none)
    | _ => none

/-- Parse the elements of a JSON array after the opening bracket (nonempty
case). -/
def parseElements : Nat → List Char → Option (List Json × List Char)
  | 0, _ => none
  | fuel + 1, cs =>
    match parseValue fuel cs with
    | some (v, rest) =>
      (match skipWs rest with
       | ',' :: rest2 =>
         (match parseElements fuel rest2 with
          | some (vs, rest3) => some (v :: vs, rest3)
          | none => none)
       | ']' :: rest2 => some ([v], rest2)
       | _ => none)
    | none => none

end

/-- Model of Python's `json.loads`: parse one value, allow trailing
whitespace, and fail (`none`, standing for `JSONDecodeError`) on anything
else. -/
def json_loads (s : String) : Option Json :=
  match parseValue (s.length + 1) s.toList with
  | some (v, rest) => if (skipWs rest).isEmpty then some v else none
  | none => none

/-! ## Data model: configuration, HTTP transport, events, Python errors -/

/-- Configuration schema (`ScapeGraphConfig` in the source): a single
required API key string. -/
structure ScapeGraphConfig where
  api_key : String

/-- Base URL of the remote API (`ScapeGraphClient.BASE_URL`). -/
def BASE_URL : String := "https://api.scrapegraphai.com/v1"

/-- An outbound HTTP request as issued through the `httpx` client: method,
full URL, headers, optional JSON body (ordered key/value pairs), and an
optional per-call timeout override (seconds). -/
structure HttpRequest where
  method : String
  url : String
  headers : List (String × String)
  body : Option (List (String × Json))
  timeout : Option Rat

/-- A remote HTTP response: status code, raw text, and the JSON value that
`response.json()` would produce. -/
structure HttpResponse where
  status : Nat
  text : String
  jsonBody : Json

/-- Outcome of a network exchange: either a response arrives or the deadline
elapses (httpx raises a timeout). -/
inductive HttpOutcome where
  | response (r : HttpResponse)
  | timeout

/-- The environment used to resolve network calls: what the remote service
does with each request. -/
def Oracle : Type := HttpRequest → HttpOutcome

/-- Observable resource events of one tool invocation: construction of a
`ScapeGraphClient` (with its connection pool) from the given API key, a
network call, and `client.close()`. -/
inductive Event where
  | clientCreated (api_key : String)
  | networkCall (req : HttpRequest)
  | clientClosed

/-- The Python exceptions that the server can raise, by catchable class:
generic `Exception`, `ValueError`, `httpx.HTTPStatusError` (a subclass of
`httpx.HTTPError`) and `httpx.TimeoutException` (also an `httpx.HTTPError`). -/
inductive PyError where
  | exception (m : String)
  | valueError (m : String)
  | httpStatusError (m : String)
  | timeoutError (m : String)

/-- Python's `str(e)` on an exception: its message. -/
def PyError.msg : PyError → String
  | .exception m => m
  | .valueError m => m
  | .httpStatusError m => m
  | .timeoutError m => m

/-- Headers attached by `ScapeGraphClient.__init__`. -/
def clientHeaders (cfg : ScapeGraphConfig) : List (String × String) :=
  [("SGAI-APIKEY", cfg.api_key), ("Content-Type", "application/json")]

/-- Build a POST request against the base URL with the client's headers. -/
def mkPost (path : String) (cfg : ScapeGraphConfig) (body : List (String × Json)) : HttpRequest :=
  HttpRequest.mk "POST" (BASE_URL ++ path) (clientHeaders cfg) (some body) none

/-- Build a POST request with a per-call timeout override. -/
def mkPostTimeout (path : String) (cfg : ScapeGraphConfig) (body : List (String × Json)) (t : Option Rat) : HttpRequest :=
  HttpRequest.mk "POST" (BASE_URL ++ path) (clientHeaders cfg) (some body) t

/-- Build a GET request against the base URL with the client's headers. -/
def mkGet (path : String) (cfg : ScapeGraphConfig) : HttpRequest :=
  HttpRequest.mk "GET" (BASE_URL ++ path) (clientHeaders cfg) none none

/-- Modelled message of an httpx timeout exception (its exact text is not
load-bearing for any claim). -/
def httpxTimeoutMsg : String := "timed out"

/-- Error message raised by the methods that check `status_code != 200`
(verbatim from the source: `f"Error \x7bresponse.status_code\x7d: \x7bresponse.text\x7d"`). -/
def error200Msg (status : Nat) (text : String) : String :=
  "Error " ++ toString status ++ ": " ++ text

/-- httpx `codes.is_success`: 2xx statuses. -/
def is2xx (s : Nat) : Bool := decide (200 ≤ s) && decide (s < 300)

/-- Error-class word used in httpx `raise_for_status` messages. -/
def statusErrorType (s : Nat) : String :=
  if s < 200 then "Informational response"
  else if s < 400 then "Redirect response"
  else if s < 500 then "Client error"
  else "Server error"

/-- Modelled after the message of `httpx.Response.raise_for_status` (the
reason phrase and the trailing documentation link are omitted; the message
does contain the numeric status code, as in httpx). -/
def raiseForStatusMsg (status : Nat) (url : String) : String :=
  statusErrorType status ++ " \x27" ++ toString status ++ "\x27 for url \x27" ++ url ++ "\x27"

/-- Issue a request and convert the response the way the `!= 200` methods do
(`markdownify`, `smartscraper`, `searchscraper`, `smartcrawler_initiate`,
`smartcrawler_fetch_results`): any status other than exactly 200 raises a
generic `Exception` carrying `error200Msg`. -/
def exchange200 (req : HttpRequest) (http : Oracle) : Except PyError Json × List Event :=
  (match http req with
   | HttpOutcome.timeout => Except.error (PyError.timeoutError httpxTimeoutMsg)
   | HttpOutcome.response r =>
     if r.status ≠ 200 then Except.error (PyError.exception (error200Msg r.status r.text))
     else Except.ok r.jsonBody,
   [Event.networkCall req])

/-- Issue a request and convert the response the way `response.raise_for_status()`
does (`scrape`, `sitemap`, `agentic_scrapper`): any non-2xx status raises
`httpx.HTTPStatusError`. -/
def exchangeRaise (req : HttpRequest) (http : Oracle) : Except PyError Json × List Event :=
  (match http req with
   | HttpOutcome.timeout => Except.error (PyError.timeoutError httpxTimeoutMsg)
   | HttpOutcome.response r =>
     if is2xx r.status then Except.ok r.jsonBody
     else Except.error (PyError.httpStatusError (raiseForStatusMsg r.status req.url)),
   [Event.networkCall req])

/-! ## Operation request bodies (parameter marshaling, verbatim from the
client methods) -/

/-- One optional body field: present exactly when the argument is not `None`. -/
def optField (k : String) : Option Json → List (String × Json)
  | some v => [(k, v)]
  | none => []

/-- Body of `markdownify`. -/
def markdownify_body (website_url : String) : List (String × Json) :=
  [("website_url", Json.str website_url)]

/-- Body of `smartscraper`: required fields, then `number_of_scrolls` and
`markdown_only` added only when provided. -/
def smartscraper_body (user_prompt website_url : String)
    (number_of_scrolls : Option Int) (markdown_only : Option Bool) : List (String × Json) :=
  [("user_prompt", Json.str user_prompt), ("website_url", Json.str website_url)]
    ++ optField "number_of_scrolls" (number_of_scrolls.map Json.num)
    ++ optField "markdown_only" (markdown_only.map Json.bool)

/-- Body of `searchscraper`. -/
def searchscraper_body (user_prompt : String)
    (num_results number_of_scrolls : Option Int) : List (String × Json) :=
  [("user_prompt", Json.str user_prompt)]
    ++ optField "num_results" (num_results.map Json.num)
    ++ optField "number_of_scrolls" (number_of_scrolls.map Json.num)

/-- Body of `scrape`. -/
def scrape_body (website_url : String) (render_heavy_js : Option Bool) : List (String × Json) :=
  [("website_url", Json.str website_url)]
    ++ optField "render_heavy_js" (render_heavy_js.map Json.bool)

/-- Body of `sitemap`. -/
def sitemap_body (website_url : String) : List (String × Json) :=
  [("website_url", Json.str website_url)]

/-- Body of `agentic_scrapper` (client method): `url` plus each optional
field added only when provided; `timeout_seconds` is not a body field. -/
def agentic_body (url : String) (user_prompt : Option String)
    (output_schema : Option (List (String × Json))) (steps : Option (List Json))
    (ai_extraction persistent_session : Option Bool) : List (String × Json) :=
  [("url", Json.str url)]
    ++ optField "user_prompt" (user_prompt.map Json.str)
    ++ optField "output_schema" (output_schema.map Json.obj)
    ++ optField "steps" (steps.map Json.arr)
    ++ optField "ai_extraction" (ai_extraction.map Json.bool)
    ++ optField "persistent_session" (persistent_session.map Json.bool)

/-- Body of `smartcrawler_initiate`, including the local extraction-mode
validation (lines 254-272 of the source): mode "markdown" forces
`markdown_only=true` and ignores any prompt; mode "ai" requires a prompt and
raises `ValueError` without one; any other mode raises `ValueError`.  The
optional crawl bounds are then added only when provided.  `Except.error` is
a raised exception, produced before any network call. -/
def smartcrawler_body (url : String) (prompt : Option String) (extraction_mode : String)
    (depth max_pages : Option Int) (same_domain_only : Option Bool) :
    Except PyError (List (String × Json)) :=
  match (if extraction_mode = "markdown" then
           Except.ok [("markdown_only", Json.bool true)]
         else if extraction_mode = "ai" then
           match prompt with
           | none => Except.error (PyError.valueError "prompt is required when extraction_mode is \x27ai\x27")
           | some p => Except.ok [("prompt", Json.str p)]
         else
           Except.error (PyError.valueError
             ("Invalid extraction_mode: " ++ extraction_mode ++ ". Must be \x27ai\x27 or \x27markdown\x27"))) with
  | Except.error e => Except.error e
  | Except.ok modeFields =>
    Except.ok ([("url", Json.str url)] ++ modeFields
      ++ optField "depth" (depth.map Json.num)
      ++ optField "max_pages" (max_pages.map Json.num)
      ++ optField "same_domain_only" (same_domain_only.map Json.bool))

/-! ## Client methods (`ScapeGraphClient`) -/

/-- `ScapeGraphClient.markdownify`. -/
def ScapeGraphClient.markdownify (cfg : ScapeGraphConfig) (website_url : String)
    (http : Oracle) : Except PyError Json × List Event :=
  exchange200 (mkPost "/markdownify" cfg (markdownify_body website_url)) http

/-- `ScapeGraphClient.smartscraper`. -/
def ScapeGraphClient.smartscraper (cfg : ScapeGraphConfig) (user_prompt website_url : String)
    (number_of_scrolls : Option Int) (markdown_only : Option Bool)
    (http : Oracle) : Except PyError Json × List Event :=
  exchange200 (mkPost "/smartscraper" cfg (smartscraper_body user_prompt website_url number_of_scrolls markdown_only)) http

/-- `ScapeGraphClient.searchscraper`. -/
def ScapeGraphClient.searchscraper (cfg : ScapeGraphConfig) (user_prompt : String)
    (num_results number_of_scrolls : Option Int)
    (http : Oracle) : Except PyError Json × List Event :=
  exchange200 (mkPost "/searchscraper" cfg (searchscraper_body user_prompt num_results number_of_scrolls)) http

/-- `ScapeGraphClient.scrape` (uses `raise_for_status`). -/
def ScapeGraphClient.scrape (cfg : ScapeGraphConfig) (website_url : String)
    (render_heavy_js : Option Bool) (http : Oracle) : Except PyError Json × List Event :=
  exchangeRaise (mkPost "/scrape" cfg (scrape_body website_url render_heavy_js)) http

/-- `ScapeGraphClient.sitemap` (uses `raise_for_status`). -/
def ScapeGraphClient.sitemap (cfg : ScapeGraphConfig) (website_url : String)
    (http : Oracle) : Except PyError Json × List Event :=
  exchangeRaise (mkPost "/sitemap" cfg (sitemap_body website_url)) http

/-- `ScapeGraphClient.agentic_scrapper` (uses `raise_for_status`); a supplied
`timeout_seconds` becomes a per-call timeout override on the POST. -/
def ScapeGraphClient.agentic_scrapper (cfg : ScapeGraphConfig) (url : String)
    (user_prompt : Option String) (output_schema : Option (List (String × Json)))
    (steps : Option (List Json)) (ai_extraction persistent_session : Option Bool)
    (timeout_seconds : Option Rat) (http : Oracle) : Except PyError Json × List Event :=
  exchangeRaise
    (mkPostTimeout "/agentic-scrapper" cfg
      (agentic_body url user_prompt output_schema steps ai_extraction persistent_session)
      timeout_seconds) http

/-- `ScapeGraphClient.smartcrawler_initiate`: validation happens while the
body is built, before the network call; on a validation error the exception
propagates and no request is issued (empty event list). -/
def ScapeGraphClient.smartcrawler_initiate (cfg : ScapeGraphConfig) (url : String)
    (prompt : Option String) (extraction_mode : String) (depth max_pages : Option Int)
    (same_domain_only : Option Bool) (http : Oracle) : Except PyError Json × List Event :=
  match smartcrawler_body url prompt extraction_mode depth max_pages same_domain_only with
  | Except.error e => (Except.error e, [])
  | Except.ok b => exchange200 (mkPost "/crawl" cfg b) http

/-- `ScapeGraphClient.smartcrawler_fetch_results`: GET of `/crawl/<id>`. -/
def ScapeGraphClient.smartcrawler_fetch_results (cfg : ScapeGraphConfig) (request_id : String)
    (http : Oracle) : Except PyError Json × List Event :=
  exchange200 (mkGet ("/crawl/" ++ request_id) cfg) http

/-! ## Tool facade (`@mcp.tool()` wrappers) -/

/-- Result of a tool invocation at the tool-invocation boundary: either a
returned dictionary (the remote payload, or `\x7b"error": msg\x7d`), or an
exception that escapes the handler uncaught. -/
inductive ToolResult where
  | returns (v : Json)
  | uncaught (e : PyError)

/-- Modelled message of the failure produced when a tool body reads
`ctx.session_config` and no session configuration is available: the code has
no guard there, so the attribute access itself raises, outside the
`try` block. -/
def sessionConfigMissingMsg : String := "session configuration is not available"

/-- Which exception classes the `except Exception` tools catch: all of them. -/
def catchesAll : PyError → Bool := fun _ => true

/-- Which exception classes `scrape`, `sitemap` and `agentic_scrapper` catch:
`httpx.HTTPError` (covering status errors and timeouts) and `ValueError`,
but not a generic `Exception`. -/
def catchesHttpOrValue : PyError → Bool
  | PyError.httpStatusError _ => true
  | PyError.timeoutError _ => true
  | PyError.valueError _ => true
  | PyError.exception _ => false

/-- Error-message formatting of `agentic_scrapper`'s handlers: timeouts get
the "Request timed out" prefix, everything else is `str(e)`. -/
def agenticFmt : PyError → String
  | PyError.timeoutError m => "Request timed out: " ++ m
  | e => e.msg

/-- The shared shape of the tool wrappers (source lines 326-533): read the
session config (raising, uncaught, when it is absent), construct a fresh
`ScapeGraphClient`, run the client method inside `try`, close the client and
return the result; on a caught exception close the client and return
`\x7b"error": str(e)\x7d`; an uncaught exception propagates without the
`except`-clause close. -/
def runTool (cfg? : Option ScapeGraphConfig) (catches : PyError → Bool) (fmt : PyError → String)
    (body : ScapeGraphConfig → Oracle → Except PyError Json × List Event)
    (http : Oracle) : ToolResult × List Event :=
  match cfg? with
  | none => (ToolResult.uncaught (PyError.exception sessionConfigMissingMsg), [])
  | some cfg =>
    match body cfg http with
    | (Except.ok v, evs) =>
      (ToolResult.returns v, Event.clientCreated cfg.api_key :: (evs ++ [Event.clientClosed]))
    | (Except.error e, evs) =>
      if catches e then
        (ToolResult.returns (Json.obj [("error", Json.str (fmt e))]),
         Event.clientCreated cfg.api_key :: (evs ++ [Event.clientClosed]))
      else
        (ToolResult.uncaught e, Event.clientCreated cfg.api_key :: evs)

/-- Tool `markdownify`. -/
def markdownify (cfg? : Option ScapeGraphConfig) (website_url : String) (http : Oracle) :
    ToolResult × List Event :=
  runTool cfg? catchesAll PyError.msg
    (fun cfg http => ScapeGraphClient.markdownify cfg website_url http) http

/-- Tool `smartscraper`. -/
def smartscraper (cfg? : Option ScapeGraphConfig) (user_prompt website_url : String)
    (number_of_scrolls : Option Int) (markdown_only : Option Bool) (http : Oracle) :
    ToolResult × List Event :=
  runTool cfg? catchesAll PyError.msg
    (fun cfg http => ScapeGraphClient.smartscraper cfg user_prompt website_url number_of_scrolls markdown_only http) http

/-- Tool `searchscraper`. -/
def searchscraper (cfg? : Option ScapeGraphConfig) (user_prompt : String)
    (num_results number_of_scrolls : Option Int) (http : Oracle) :
    ToolResult × List Event :=
  runTool cfg? catchesAll PyError.msg
    (fun cfg http => ScapeGraphClient.searchscraper cfg user_prompt num_results number_of_scrolls http) http

/-- Tool `smartcrawler_initiate`. -/
def smartcrawler_initiate (cfg? : Option ScapeGraphConfig) (url : String)
    (prompt : Option String) (extraction_mode : String) (depth max_pages : Option Int)
    (same_domain_only : Option Bool) (http : Oracle) : ToolResult × List Event :=
  runTool cfg? catchesAll PyError.msg
    (fun cfg http => ScapeGraphClient.smartcrawler_initiate cfg url prompt extraction_mode depth max_pages same_domain_only http) http

/-- Tool `smartcrawler_fetch_results`. -/
def smartcrawler_fetch_results (cfg? : Option ScapeGraphConfig) (request_id : String)
    (http : Oracle) : ToolResult × List Event :=
  runTool cfg? catchesAll PyError.msg
    (fun cfg http => ScapeGraphClient.smartcrawler_fetch_results cfg request_id http) http

/-- Tool `scrape` (catches only `httpx.HTTPError` and `ValueError`). -/
def scrape (cfg? : Option ScapeGraphConfig) (website_url : String)
    (render_heavy_js : Option Bool) (http : Oracle) : ToolResult × List Event :=
  runTool cfg? catchesHttpOrValue PyError.msg
    (fun cfg http => ScapeGraphClient.scrape cfg website_url render_heavy_js http) http

/-- Tool `sitemap` (catches only `httpx.HTTPError` and `ValueError`). -/
def sitemap (cfg? : Option ScapeGraphConfig) (website_url : String) (http : Oracle) :
    ToolResult × List Event :=
  runTool cfg? catchesHttpOrValue PyError.msg
    (fun cfg http => ScapeGraphClient.sitemap cfg website_url http) http

/-! ## `agentic_scrapper` tool: flexible-input normalization -/

/-- The `steps` tool parameter: `Union[str, List[str]]`. -/
inductive StepsArg where
  | list (l : List String)
  | str (s : String)

/-- The `output_schema` tool parameter: `Union[str, Dict[str, Any]]`. -/
inductive SchemaArg where
  | dict (d : List (String × Json))
  | str (s : String)

/-- Normalization of `steps` (source lines 564-576): a list is used as is; a
string is first parsed as JSON — if that yields an array, the array is used,
otherwise (decode failure or a non-array value) the whole string becomes a
one-element list. -/
def normalize_steps : Option StepsArg → Option (List Json)
  | none => none
  | some (StepsArg.list l) => some (l.map Json.str)
  | some (StepsArg.str s) =>
    match json_loads s with
    | some (Json.arr xs) => some xs
    | _ => some [Json.str s]

/-- Modelled message of the `JSONDecodeError` interpolated by the source's
`f"Invalid JSON for output_schema: \x7bstr(e)\x7d"`; the detail text is not
load-bearing for any claim. -/
def invalidSchemaMsg : String := "Invalid JSON for output_schema: Expecting value"

/-- Normalization of `output_schema` (source lines 578-591): a dict is used
as is; a string must JSON-decode to an object, otherwise the tool returns a
validation error (`Except.error` carries the returned error message). -/
def normalize_output_schema : Option SchemaArg → Except String (Option (List (String × Json)))
  | none => Except.ok none
  | some (SchemaArg.dict d) => Except.ok (some d)
  | some (SchemaArg.str s) =>
    match json_loads s with
    | some (Json.obj d) => Except.ok (some d)
    | some _ => Except.error "output_schema must be a JSON object"
    | none => Except.error invalidSchemaMsg

/-- Tool `agentic_scrapper` (source lines 537-613): the client is created
before normalization; a schema normalization failure closes the client and
returns the error object without any network call; otherwise the client
method runs under the `try` with handlers for `httpx.TimeoutException`
(special message), `httpx.HTTPError` and `ValueError`. -/
def agentic_scrapper (cfg? : Option ScapeGraphConfig) (url : String)
    (user_prompt : Option String) (output_schema : Option SchemaArg)
    (steps : Option StepsArg) (ai_extraction persistent_session : Option Bool)
    (timeout_seconds : Option Rat) (http : Oracle) : ToolResult × List Event :=
  match cfg? with
  | none => (ToolResult.uncaught (PyError.exception sessionConfigMissingMsg), [])
  | some cfg =>
    match normalize_output_schema output_schema with
    | Except.error m =>
      (ToolResult.returns (Json.obj [("error", Json.str m)]),
       [Event.clientCreated cfg.api_key, Event.clientClosed])
    | Except.ok normalized_schema =>
      runTool (some cfg) catchesHttpOrValue agenticFmt
        (fun cfg http => ScapeGraphClient.agentic_scrapper cfg url user_prompt normalized_schema
          (normalize_steps steps) ai_extraction persistent_session timeout_seconds http) http

/-! ## Observation helpers used by the theorem statements -/

/-- Substring test on strings. -/
def containsSubstr (s pat : String) : Bool := decide (pat.toList <:+: s.toList)

/-- Whether a request body has a field with the given key. -/
def hasKey (b : List (String × Json)) (k : String) : Bool := b.any (fun p => p.1 == k)

/-- Whether some field of a body carries the JSON `null` placeholder. -/
def noNullValues (b : List (String × Json)) : Bool :=
  b.all (fun p => match p.2 with | Json.null => false | _ => true)

/-- `exceptIsOk` observes whether an operation succeeded. -/
def exceptIsOk {ε α : Type} : Except ε α → Bool
  | Except.ok _ => true
  | Except.error _ => false

/-- Whether a client-method outcome is a raised `ValueError`. -/
def isValueError : Except PyError Json → Bool
  | Except.error (PyError.valueError _) => true
  | _ => false

/-- Key lookup on a successfully built body (`none` when the build raised). -/
def bodyLookup (r : Except PyError (List (String × Json))) (k : String) : Option Json :=
  match r with
  | Except.ok b => List.lookup k b
  | Except.error _ => none

/-- Key presence on a successfully built body (`false` when the build raised). -/
def bodyHasKey (r : Except PyError (List (String × Json))) (k : String) : Bool :=
  match r with
  | Except.ok b => hasKey b k
  | Except.error _ => false

/-- The message of a returned `\x7b"error": msg\x7d` object, if the tool
result has exactly that shape. -/
def errorReturnMsg : ToolResult → Option String
  | ToolResult.returns (Json.obj [("error", Json.str m)]) => some m
  | _ => none

/-- Whether a tool result is a returned error object whose message contains
the given text. -/
def returnsErrorContaining (r : ToolResult) (pat : String) : Bool :=
  match errorReturnMsg r with
  | some m => containsSubstr m pat
  | none => false

/-- Whether a tool result is a returned error object whose message contains
the decimal rendering of the given HTTP status code. -/
def errorWithStatus (r : ToolResult) (status : Nat) : Bool :=
  returnsErrorContaining r (toString status)

/-- No network call appears in a trace. -/
def noNetworkCall (tr : List Event) : Bool :=
  tr.all (fun e => match e with | Event.networkCall _ => false | _ => true)

/-- Number of client constructions in a trace. -/
def createdCount (tr : List Event) : Nat :=
  tr.countP (fun e => match e with | Event.clientCreated _ => true | _ => false)

/-- Number of `client.close()` calls in a trace. -/
def closedCount (tr : List Event) : Nat :=
  tr.countP (fun e => match e with | Event.clientClosed => true | _ => false)

/-- An event that is a plain network call (used to state that client methods
emit nothing else). -/
def isNetworkEvent : Event → Bool
  | Event.networkCall _ => true
  | _ => false

/-- Both mandatory headers are present on a request with the given key. -/
def headersOk (key : String) (req : HttpRequest) : Bool :=
  (List.lookup "SGAI-APIKEY" req.headers == some key)
    && (List.lookup "Content-Type" req.headers == some "application/json")

/-- Every network call of a trace carries both mandatory headers. -/
def allRequestsAuthed (key : String) (tr : List Event) : Bool :=
  tr.all (fun e => match e with | Event.networkCall req => headersOk key req | _ => true)

/-- A sample configuration used by concrete witnesses. -/
def cfgEx : ScapeGraphConfig := ScapeGraphConfig.mk "test-key"

/-- A sample oracle answering every request with an empty 200 response. -/
def oracle200 : Oracle := fun _ => HttpOutcome.response (HttpResponse.mk 200 "" (Json.obj []))

/-- A sample oracle answering every request with a 404 response. -/
def oracle404 : Oracle := fun _ => HttpOutcome.response (HttpResponse.mk 404 "Not Found" Json.null)

/-- A sample oracle answering every request with a 201 response. -/
def oracle201 : Oracle := fun _ => HttpOutcome.response (HttpResponse.mk 201 "Created" (Json.obj []))

/-- No field of a successfully built body carries `null` (vacuously true for
a failed build). -/
def bodyNoNull (r : Except PyError (List (String × Json))) : Bool :=
  match r with
  | Except.ok b => noNullValues b
  | Except.error _ => true

/-! ## Helper lemmas -/

theorem containsSubstr_of_parts (s m : String) (x y : List Char)
    (h : s.toList = x ++ m.toList ++ y) : containsSubstr s m = true := by
  simp only [containsSubstr, decide_eq_true_eq]
  exact ⟨x, y, h.symm⟩

theorem error200Msg_contains (status : Nat) (text : String) :
    containsSubstr (error200Msg status text) (toString status) = true := by
  apply containsSubstr_of_parts _ _ ("Error ".toList) ((": " ++ text).toList)
  simp [error200Msg, List.append_assoc]

theorem raiseForStatusMsg_contains (status : Nat) (url : String) :
    containsSubstr (raiseForStatusMsg status url) (toString status) = true := by
  apply containsSubstr_of_parts _ _ ((statusErrorType status ++ " \x27").toList)
    (("\x27 for url \x27" ++ url ++ "\x27").toList)
  simp [raiseForStatusMsg, List.append_assoc]

theorem headersOk_clientHeaders (cfg : ScapeGraphConfig) :
    headersOk cfg.api_key (HttpRequest.mk m u (clientHeaders cfg) b t) = true := by
  simp [headersOk, clientHeaders, List.lookup]

theorem exchange200_non200 (req : HttpRequest) (http : Oracle) (r : HttpResponse)
    (hr : http req = HttpOutcome.response r) (h : r.status ≠ 200) :
    exchange200 req http =
      (Except.error (PyError.exception (error200Msg r.status r.text)), [Event.networkCall req]) := by
  unfold exchange200
  rw [hr]
  simp [h]

theorem exchange200_ok (req : HttpRequest) (http : Oracle) (r : HttpResponse)
    (hr : http req = HttpOutcome.response r) (h : r.status = 200) :
    exchange200 req http = (Except.ok r.jsonBody, [Event.networkCall req]) := by
  unfold exchange200
  rw [hr]
  simp [h]

theorem exchangeRaise_non2xx (req : HttpRequest) (http : Oracle) (r : HttpResponse)
    (hr : http req = HttpOutcome.response r) (h : is2xx r.status = false) :
    exchangeRaise req http =
      (Except.error (PyError.httpStatusError (raiseForStatusMsg r.status req.url)),
       [Event.networkCall req]) := by
  unfold exchangeRaise
  rw [hr]
  simp [h]

theorem exchangeRaise_ok (req : HttpRequest) (http : Oracle) (r : HttpResponse)
    (hr : http req = HttpOutcome.response r) (h : is2xx r.status = true) :
    exchangeRaise req http = (Except.ok r.jsonBody, [Event.networkCall req]) := by
  unfold exchangeRaise
  rw [hr]
  simp [h]

theorem runTool_caught (cfg : ScapeGraphConfig) (catches : PyError → Bool) (fmt : PyError → String)
    (body : ScapeGraphConfig → Oracle → Except PyError Json × List Event) (http : Oracle)
    (e : PyError) (evs : List Event)
    (hb : body cfg http = (Except.error e, evs)) (hc : catches e = true) :
    runTool (some cfg) catches fmt body http =
      (ToolResult.returns (Json.obj [("error", Json.str (fmt e))]),
       Event.clientCreated cfg.api_key :: (evs ++ [Event.clientClosed])) := by
  unfold runTool
  dsimp only
  rw [hb]
  simp [hc]

theorem runTool_ok (cfg : ScapeGraphConfig) (catches : PyError → Bool) (fmt : PyError → String)
    (body : ScapeGraphConfig → Oracle → Except PyError Json × List Event) (http : Oracle)
    (v : Json) (evs : List Event) (hb : body cfg http = (Except.ok v, evs)) :
    runTool (some cfg) catches fmt body http =
      (ToolResult.returns v, Event.clientCreated cfg.api_key :: (evs ++ [Event.clientClosed])) := by
  unfold runTool
  dsimp only
  rw [hb]

theorem smartcrawler_body_invalid_mode (url : String) (prompt : Option String) (mode : String)
    (d mp : Option Int) (sdo : Option Bool) (h1 : mode ≠ "markdown") (h2 : mode ≠ "ai") :
    smartcrawler_body url prompt mode d mp sdo =
      Except.error (PyError.valueError
        ("Invalid extraction_mode: " ++ mode ++ ". Must be \x27ai\x27 or \x27markdown\x27")) := by
  unfold smartcrawler_body
  simp [h1, h2]

theorem smartcrawler_body_ai_no_prompt (url : String) (d mp : Option Int) (sdo : Option Bool) :
    smartcrawler_body url none "ai" d mp sdo =
      Except.error (PyError.valueError "prompt is required when extraction_mode is \x27ai\x27") := rfl

theorem smartcrawler_body_ai (url p : String) (d mp : Option Int) (sdo : Option Bool) :
    smartcrawler_body url (some p) "ai" d mp sdo =
      Except.ok ([("url", Json.str url)] ++ [("prompt", Json.str p)]
        ++ optField "depth" (d.map Json.num)
        ++ optField "max_pages" (mp.map Json.num)
        ++ optField "same_domain_only" (sdo.map Json.bool)) := rfl

theorem smartcrawler_body_markdown (url : String) (prompt : Option String)
    (d mp : Option Int) (sdo : Option Bool) :
    smartcrawler_body url prompt "markdown" d mp sdo =
      Except.ok ([("url", Json.str url)] ++ [("markdown_only", Json.bool true)]
        ++ optField "depth" (d.map Json.num)
        ++ optField "max_pages" (mp.map Json.num)
        ++ optField "same_domain_only" (sdo.map Json.bool)) := rfl

theorem markdownify_client_events (cfg : ScapeGraphConfig) (u : String) (http : Oracle) :
    (ScapeGraphClient.markdownify cfg u http).2.all isNetworkEvent = true := rfl

theorem smartscraper_client_events (cfg : ScapeGraphConfig) (up w : String)
    (ns : Option Int) (mo : Option Bool) (http : Oracle) :
    (ScapeGraphClient.smartscraper cfg up w ns mo http).2.all isNetworkEvent = true := rfl

theorem searchscraper_client_events (cfg : ScapeGraphConfig) (up : String)
    (nr ns : Option Int) (http : Oracle) :
    (ScapeGraphClient.searchscraper cfg up nr ns http).2.all isNetworkEvent = true := rfl

theorem scrape_client_events (cfg : ScapeGraphConfig) (w : String) (rjs : Option Bool)
    (http : Oracle) : (ScapeGraphClient.scrape cfg w rjs http).2.all isNetworkEvent = true := rfl

theorem sitemap_client_events (cfg : ScapeGraphConfig) (w : String) (http : Oracle) :
    (ScapeGraphClient.sitemap cfg w http).2.all isNetworkEvent = true := rfl

theorem agentic_client_events (cfg : ScapeGraphConfig) (u : String) (up : Option String)
    (os : Option (List (String × Json))) (st : Option (List Json)) (ai ps : Option Bool)
    (t : Option Rat) (http : Oracle) :
    (ScapeGraphClient.agentic_scrapper cfg u up os st ai ps t http).2.all isNetworkEvent = true := rfl

theorem initiate_client_events (cfg : ScapeGraphConfig) (u : String) (p : Option String)
    (mode : String) (d mp : Option Int) (sdo : Option Bool) (http : Oracle) :
    (ScapeGraphClient.smartcrawler_initiate cfg u p mode d mp sdo http).2.all isNetworkEvent = true := by
  unfold ScapeGraphClient.smartcrawler_initiate
  split <;> rfl

theorem fetch_client_events (cfg : ScapeGraphConfig) (rid : String) (http : Oracle) :
    (ScapeGraphClient.smartcrawler_fetch_results cfg rid http).2.all isNetworkEvent = true := rfl

theorem createdCount_eq_zero (evs : List Event) (h : evs.all isNetworkEvent = true) :
    createdCount evs = 0 := by
  unfold createdCount
  rw [List.countP_eq_zero]
  intro a ha
  rw [List.all_eq_true] at h
  have := h a ha
  cases a <;> simp_all [isNetworkEvent]

theorem closedCount_eq_zero (evs : List Event) (h : evs.all isNetworkEvent = true) :
    closedCount evs = 0 := by
  unfold closedCount
  rw [List.countP_eq_zero]
  intro a ha
  rw [List.all_eq_true] at h
  have := h a ha
  cases a <;> simp_all [isNetworkEvent]

theorem runTool_lifecycle (cfg : ScapeGraphConfig) (catches : PyError → Bool) (fmt : PyError → String)
    (body : ScapeGraphConfig → Oracle → Except PyError Json × List Event) (http : Oracle)
    (hev : (body cfg http).2.all isNetworkEvent = true) :
    (runTool (some cfg) catches fmt body http).2.head? = some (Event.clientCreated cfg.api_key) ∧
    createdCount (runTool (some cfg) catches fmt body http).2 = 1 ∧
    ∀ v, (runTool (some cfg) catches fmt body http).1 = ToolResult.returns v →
      (runTool (some cfg) catches fmt body http).2.getLast? = some Event.clientClosed ∧
      closedCount (runTool (some cfg) catches fmt body http).2 = 1 := by
  rcases hb : body cfg http with ⟨res, evs⟩
  rw [hb] at hev
  have hc0 := createdCount_eq_zero evs hev
  have hcl0 := closedCount_eq_zero evs hev
  have hlast : (Event.clientCreated cfg.api_key :: (evs ++ [Event.clientClosed])).getLast? =
      some Event.clientClosed := by
    rw [show Event.clientCreated cfg.api_key :: (evs ++ [Event.clientClosed]) =
      (Event.clientCreated cfg.api_key :: evs) ++ [Event.clientClosed] from rfl]
    exact List.getLast?_concat _
  have hcreated : createdCount (Event.clientCreated cfg.api_key :: (evs ++ [Event.clientClosed])) = 1 := by
    unfold createdCount at hc0 ⊢
    simp [List.countP_cons, List.countP_append, hc0]
  have hclosed : closedCount (Event.clientCreated cfg.api_key :: (evs ++ [Event.clientClosed])) = 1 := by
    unfold closedCount at hcl0 ⊢
    simp [List.countP_cons, List.countP_append, hcl0]
  rcases res with e | v
  · cases hc : catches e
    · have key : runTool (some cfg) catches fmt body http =
          (ToolResult.uncaught e, Event.clientCreated cfg.api_key :: evs) := by
        unfold runTool
        dsimp only
        rw [hb]
        simp [hc]
      rw [key]
      refine ⟨rfl, ?_, ?_⟩
      · unfold createdCount at hc0 ⊢
        simp [List.countP_cons, hc0]
      · intro v hv
        simp at hv
    · have key : runTool (some cfg) catches fmt body http =
          (ToolResult.returns (Json.obj [("error", Json.str (fmt e))]),
           Event.clientCreated cfg.api_key :: (evs ++ [Event.clientClosed])) := by
        unfold runTool
        dsimp only
        rw [hb]
        simp [hc]
      rw [key]
      exact ⟨rfl, hcreated, fun v hv => ⟨hlast, hclosed⟩⟩
  · have key : runTool (some cfg) catches fmt body http =
        (ToolResult.returns v, Event.clientCreated cfg.api_key :: (evs ++ [Event.clientClosed])) := by
      unfold runTool
      dsimp only
      rw [hb]
    rw [key]
    exact ⟨rfl, hcreated, fun v hv => ⟨hlast, hclosed⟩⟩

theorem allRequestsAuthed_runTool (cfg : ScapeGraphConfig) (catches : PyError → Bool)
    (fmt : PyError → String) (body : ScapeGraphConfig → Oracle → Except PyError Json × List Event)
    (http : Oracle) (hb : allRequestsAuthed cfg.api_key (body cfg http).2 = true) :
    allRequestsAuthed cfg.api_key (runTool (some cfg) catches fmt body http).2 = true := by
  rcases hbody : body cfg http with ⟨res, evs⟩
  rw [hbody] at hb
  rcases res with e | v
  · cases hc : catches e
    · have key : runTool (some cfg) catches fmt body http =
          (ToolResult.uncaught e, Event.clientCreated cfg.api_key :: evs) := by
        unfold runTool
        dsimp only
        rw [hbody]
        simp [hc]
      rw [key]
      unfold allRequestsAuthed at hb ⊢
      simp [List.all_cons, hb]
    · have key : runTool (some cfg) catches fmt body http =
          (ToolResult.returns (Json.obj [("error", Json.str (fmt e))]),
           Event.clientCreated cfg.api_key :: (evs ++ [Event.clientClosed])) := by
        unfold runTool
        dsimp only
        rw [hbody]
        simp [hc]
      rw [key]
      unfold allRequestsAuthed at hb ⊢
      simp [List.all_cons, List.all_append, hb]
  · have key : runTool (some cfg) catches fmt body http =
        (ToolResult.returns v, Event.clientCreated cfg.api_key :: (evs ++ [Event.clientClosed])) := by
      unfold runTool
      dsimp only
      rw [hbody]
    rw [key]
    unfold allRequestsAuthed at hb ⊢
    simp [List.all_cons, List.all_append, hb]

theorem normalize_output_schema_dict (od : Option (List (String × Json))) :
    normalize_output_schema (od.map SchemaArg.dict) = Except.ok od := by
  cases od <;> rfl

theorem agentic_tool_eq_runTool (cfg : ScapeGraphConfig) (u : String) (up : Option String)
    (os : Option SchemaArg) (st : Option StepsArg) (ai ps : Option Bool) (t : Option Rat)
    (http : Oracle) (nos : Option (List (String × Json)))
    (hn : normalize_output_schema os = Except.ok nos) :
    agentic_scrapper (some cfg) u up os st ai ps t http =
      runTool (some cfg) catchesHttpOrValue agenticFmt
        (fun cfg http => ScapeGraphClient.agentic_scrapper cfg u up nos (normalize_steps st) ai ps t http)
        http := by
  unfold agentic_scrapper
  dsimp only
  rw [hn]

theorem agentic_tool_schema_error (cfg : ScapeGraphConfig) (u : String) (up : Option String)
    (os : Option SchemaArg) (st : Option StepsArg) (ai ps : Option Bool) (t : Option Rat)
    (http : Oracle) (m : String) (hn : normalize_output_schema os = Except.error m) :
    agentic_scrapper (some cfg) u up os st ai ps t http =
      (ToolResult.returns (Json.obj [("error", Json.str m)]),
       [Event.clientCreated cfg.api_key, Event.clientClosed]) := by
  unfold agentic_scrapper
  dsimp only
  rw [hn]

/-! ## Claim theorems -/

/-- C1 (amended): when no session credential is configured, every tool call
fails before any network call and before a client is even constructed — but
it does so by raising an uncaught error while reading the session
configuration, not by returning an `\x7berror: "... not initialized ..."\x7d`
object: the server code contains no such guard or error message.  The result
is the uncaught exception and an empty event trace (in particular, no
network call). -/
theorem spec_c1_no_credential_uncaught :
    (∀ u http, markdownify none u http =
      (ToolResult.uncaught (PyError.exception sessionConfigMissingMsg), [])) ∧
    (∀ up w ns mo http, smartscraper none up w ns mo http =
      (ToolResult.uncaught (PyError.exception sessionConfigMissingMsg), [])) ∧
    (∀ up nr ns http, searchscraper none up nr ns http =
      (ToolResult.uncaught (PyError.exception sessionConfigMissingMsg), [])) ∧
    (∀ u p mode d mp sdo http, smartcrawler_initiate none u p mode d mp sdo http =
      (ToolResult.uncaught (PyError.exception sessionConfigMissingMsg), [])) ∧
    (∀ rid http, smartcrawler_fetch_results none rid http =
      (ToolResult.uncaught (PyError.exception sessionConfigMissingMsg), [])) ∧
    (∀ u rjs http, scrape none u rjs http =
      (ToolResult.uncaught (PyError.exception sessionConfigMissingMsg), [])) ∧
    (∀ u http, sitemap none u http =
      (ToolResult.uncaught (PyError.exception sessionConfigMissingMsg), [])) ∧
    (∀ u up os st ai ps t http, agentic_scrapper none u up os st ai ps t http =
      (ToolResult.uncaught (PyError.exception sessionConfigMissingMsg), [])) :=
  ⟨fun _ _ => rfl, fun _ _ _ _ _ => rfl, fun _ _ _ _ => rfl, fun _ _ _ _ _ _ _ => rfl,
   fun _ _ => rfl, fun _ _ _ => rfl, fun _ _ => rfl, fun _ _ _ _ _ _ _ _ => rfl⟩

/-- C1, counterexample to the claim as stated: with no credential configured,
the `markdownify` tool does not return an error object mentioning
"not initialized" — it raises an uncaught error instead (the code has no
"not initialized" path). -/
theorem spec_c1_counterexample :
    returnsErrorContaining (markdownify none "https://example.com" oracle200).1 "not initialized" = false ∧
    (markdownify none "https://example.com" oracle200).1 =
      ToolResult.uncaught (PyError.exception sessionConfigMissingMsg) :=
  ⟨rfl, rfl⟩

/-- C2 (confirmed): for every parameter set whose `extraction_mode` is
outside \x7b"ai","markdown"\x7d, or is "ai" with no prompt, the crawl
submission raises a local `ValueError` while building the body, with no
network call ever issued — neither at the client level (empty event list)
nor at the tool level (trace without network events). -/
theorem spec_c2_crawl_validation (cfg : ScapeGraphConfig) (u : String) (p : Option String)
    (mode : String) (d mp : Option Int) (sdo : Option Bool) (http : Oracle)
    (h : (mode ≠ "ai" ∧ mode ≠ "markdown") ∨ (mode = "ai" ∧ p = none)) :
    isValueError (ScapeGraphClient.smartcrawler_initiate cfg u p mode d mp sdo http).1 = true ∧
    (ScapeGraphClient.smartcrawler_initiate cfg u p mode d mp sdo http).2 = [] ∧
    noNetworkCall (smartcrawler_initiate (some cfg) u p mode d mp sdo http).2 = true := by
  have hbody : ∃ m, smartcrawler_body u p mode d mp sdo = Except.error (PyError.valueError m) := by
    rcases h with ⟨h1, h2⟩ | ⟨h1, h2⟩
    · exact ⟨_, smartcrawler_body_invalid_mode u p mode d mp sdo h2 h1⟩
    · subst h1
      subst h2
      exact ⟨_, smartcrawler_body_ai_no_prompt u d mp sdo⟩
  obtain ⟨m, hm⟩ := hbody
  have hclient : ScapeGraphClient.smartcrawler_initiate cfg u p mode d mp sdo http =
      (Except.error (PyError.valueError m), []) := by
    unfold ScapeGraphClient.smartcrawler_initiate
    rw [hm]
  refine ⟨by rw [hclient]; rfl, by rw [hclient], ?_⟩
  have hrt := runTool_caught cfg catchesAll PyError.msg
    (fun cfg http => ScapeGraphClient.smartcrawler_initiate cfg u p mode d mp sdo http) http
    (PyError.valueError m) [] hclient rfl
  unfold smartcrawler_initiate
  rw [hrt]
  rfl

/-- C2 witness: a concrete invalid submission ("ai" mode, no prompt). -/
theorem spec_c2_witness :
    isValueError (ScapeGraphClient.smartcrawler_initiate cfgEx "https://example.com" none "ai"
      none none none oracle200).1 = true ∧
    (ScapeGraphClient.smartcrawler_initiate cfgEx "https://example.com" none "ai"
      none none none oracle200).2 = [] ∧
    noNetworkCall (smartcrawler_initiate (some cfgEx) "https://example.com" none "ai"
      none none none oracle200).2 = true :=
  spec_c2_crawl_validation cfgEx "https://example.com" none "ai" none none none oracle200
    (Or.inr ⟨rfl, rfl⟩)

/-- C4 (confirmed): every crawl submission with `extraction_mode="markdown"`
builds successfully, its body carries `markdown_only = true`, and the body
has no `prompt` key — for every supplied prompt value (including a supplied
prompt string, which is ignored). -/
theorem spec_c4_markdown_mode_body (u : String) (p : Option String) (d mp : Option Int)
    (sdo : Option Bool) :
    exceptIsOk (smartcrawler_body u p "markdown" d mp sdo) = true ∧
    bodyLookup (smartcrawler_body u p "markdown" d mp sdo) "markdown_only" = some (Json.bool true) ∧
    bodyHasKey (smartcrawler_body u p "markdown" d mp sdo) "prompt" = false := by
  refine ⟨rfl, rfl, ?_⟩
  cases d <;> cases mp <;> cases sdo <;> rfl

/-- C7, counterexample to the claim as stated: the crawl submission body is
not "key present iff parameter supplied" — with `extraction_mode="markdown"`
and a supplied prompt, the build succeeds yet the body has no `prompt` key
(the supplied prompt is dropped). -/
theorem spec_c7_counterexample :
    exceptIsOk (smartcrawler_body "https://example.com" (some "list headings") "markdown"
      none none none) = true ∧
    bodyHasKey (smartcrawler_body "https://example.com" (some "list headings") "markdown"
      none none none) "prompt" = false :=
  ⟨rfl, rfl⟩

/-- C7 (amended): for every operation, the constructed request body contains
a key for an optional parameter iff that parameter was supplied, with the
single exception forced by the code: crawl submission in markdown mode omits
a supplied `prompt` (C4).  In all cases, unsupplied optional fields are
absent — no field of any body is ever the `null` placeholder. -/
theorem spec_c7_optional_fields :
    (∀ u, noNullValues (markdownify_body u) = true) ∧
    (∀ up w ns mo,
      hasKey (smartscraper_body up w ns mo) "number_of_scrolls" = ns.isSome ∧
      hasKey (smartscraper_body up w ns mo) "markdown_only" = mo.isSome ∧
      noNullValues (smartscraper_body up w ns mo) = true) ∧
    (∀ up nr ns,
      hasKey (searchscraper_body up nr ns) "num_results" = nr.isSome ∧
      hasKey (searchscraper_body up nr ns) "number_of_scrolls" = ns.isSome ∧
      noNullValues (searchscraper_body up nr ns) = true) ∧
    (∀ w rjs,
      hasKey (scrape_body w rjs) "render_heavy_js" = rjs.isSome ∧
      noNullValues (scrape_body w rjs) = true) ∧
    (∀ w, noNullValues (sitemap_body w) = true) ∧
    (∀ u up os st ai ps,
      hasKey (agentic_body u up os st ai ps) "user_prompt" = up.isSome ∧
      hasKey (agentic_body u up os st ai ps) "output_schema" = os.isSome ∧
      hasKey (agentic_body u up os st ai ps) "steps" = st.isSome ∧
      hasKey (agentic_body u up os st ai ps) "ai_extraction" = ai.isSome ∧
      hasKey (agentic_body u up os st ai ps) "persistent_session" = ps.isSome ∧
      noNullValues (agentic_body u up os st ai ps) = true) ∧
    (∀ u p d mp sdo,
      bodyHasKey (smartcrawler_body u (some p) "ai" d mp sdo) "prompt" = true ∧
      bodyHasKey (smartcrawler_body u (some p) "ai" d mp sdo) "depth" = d.isSome ∧
      bodyHasKey (smartcrawler_body u (some p) "ai" d mp sdo) "max_pages" = mp.isSome ∧
      bodyHasKey (smartcrawler_body u (some p) "ai" d mp sdo) "same_domain_only" = sdo.isSome ∧
      bodyNoNull (smartcrawler_body u (some p) "ai" d mp sdo) = true ∧
      bodyHasKey (smartcrawler_body u (some p) "markdown" d mp sdo) "prompt" = false ∧
      bodyHasKey (smartcrawler_body u (some p) "markdown" d mp sdo) "depth" = d.isSome ∧
      bodyHasKey (smartcrawler_body u (some p) "markdown" d mp sdo) "max_pages" = mp.isSome ∧
      bodyHasKey (smartcrawler_body u (some p) "markdown" d mp sdo) "same_domain_only" = sdo.isSome ∧
      bodyNoNull (smartcrawler_body u (some p) "markdown" d mp sdo) = true) := by
  refine ⟨fun u => rfl, ?_, ?_, ?_, fun w => rfl, ?_, ?_⟩
  · intro up w ns mo
    cases ns <;> cases mo <;> exact ⟨rfl, rfl, rfl⟩
  · intro up nr ns
    cases nr <;> cases ns <;> exact ⟨rfl, rfl, rfl⟩
  · intro w rjs
    cases rjs <;> exact ⟨rfl, rfl⟩
  · intro u up os st ai ps
    cases up <;> cases os <;> cases st <;> cases ai <;> cases ps <;>
      exact ⟨rfl, rfl, rfl, rfl, rfl, rfl⟩
  · intro u p d mp sdo
    cases d <;> cases mp <;> cases sdo <;>
      exact ⟨rfl, rfl, rfl, rfl, rfl, rfl, rfl, rfl, rfl, rfl⟩

/-- C5 (confirmed): `agentic_scrapper`'s `steps` normalization — a string is
first parsed with `json_loads`; a decoded array is used as the step
sequence, anything else (a non-array JSON value or a decode failure) turns
the whole original string into a one-element sequence; a list argument is
used unchanged.  The spec's two concrete examples are included. -/
theorem spec_c5_steps_normalization :
    (∀ s xs, json_loads s = some (Json.arr xs) →
      normalize_steps (some (StepsArg.str s)) = some xs) ∧
    (∀ s, (∀ xs, json_loads s ≠ some (Json.arr xs)) →
      normalize_steps (some (StepsArg.str s)) = some [Json.str s]) ∧
    (∀ l, normalize_steps (some (StepsArg.list l)) = some (l.map Json.str)) ∧
    normalize_steps (some (StepsArg.str "[\"a\",\"b\"]")) = some [Json.str "a", Json.str "b"] ∧
    normalize_steps (some (StepsArg.str "go to page")) = some [Json.str "go to page"] := by
  refine ⟨?_, ?_, fun l => rfl, rfl, rfl⟩
  · intro s xs h
    unfold normalize_steps
    dsimp only
    rw [h]
  · intro s hne
    unfold normalize_steps
    dsimp only
    rcases hj : json_loads s with _ | v
    · rfl
    · rcases v with _ | b | n | f | sv | xs | flds
      · rfl
      · rfl
      · rfl
      · rfl
      · rfl
      · exact absurd hj (hne xs)
      · rfl

/-- C5 witness: the theorem applied at the spec's concrete inputs. -/
theorem spec_c5_witness :
    normalize_steps (some (StepsArg.str "[\"a\",\"b\"]")) = some [Json.str "a", Json.str "b"] ∧
    normalize_steps (some (StepsArg.str "go to page")) = some [Json.str "go to page"] :=
  ⟨spec_c5_steps_normalization.1 "[\"a\",\"b\"]" [Json.str "a", Json.str "b"] rfl,
   spec_c5_steps_normalization.2.1 "go to page"
     (fun xs h => by rw [show json_loads "go to page" = none from rfl] at h; exact Option.noConfusion h)⟩

/-- C6 (confirmed): `agentic_scrapper`'s `output_schema` normalization — a
string that decodes to a JSON object is replaced by that object; a string
that decodes to a non-object, or fails to decode, makes the tool return an
`\x7berror: msg\x7d` object with the client closed and no network call,
never a silent drop.  The spec's concrete examples are included. -/
theorem spec_c6_schema_normalization :
    (∀ s dd, json_loads s = some (Json.obj dd) →
      normalize_output_schema (some (SchemaArg.str s)) = Except.ok (some dd)) ∧
    (∀ s v, json_loads s = some v → (∀ dd, v ≠ Json.obj dd) →
      normalize_output_schema (some (SchemaArg.str s)) =
        Except.error "output_schema must be a JSON object") ∧
    (∀ s, json_loads s = none →
      normalize_output_schema (some (SchemaArg.str s)) = Except.error invalidSchemaMsg) ∧
    (∀ cfg u up st ai ps t http s m,
      normalize_output_schema (some (SchemaArg.str s)) = Except.error m →
      agentic_scrapper (some cfg) u up (some (SchemaArg.str s)) st ai ps t http =
        (ToolResult.returns (Json.obj [("error", Json.str m)]),
         [Event.clientCreated cfg.api_key, Event.clientClosed]) ∧
      noNetworkCall (agentic_scrapper (some cfg) u up (some (SchemaArg.str s)) st ai ps t http).2 = true) ∧
    normalize_output_schema (some (SchemaArg.str "\x7b\"a\":1\x7d")) =
      Except.ok (some [("a", Json.num 1)]) ∧
    normalize_output_schema (some (SchemaArg.str "not json")) = Except.error invalidSchemaMsg := by
  refine ⟨?_, ?_, ?_, ?_, rfl, rfl⟩
  · intro s dd h
    unfold normalize_output_schema
    dsimp only
    rw [h]
  · intro s v hj hne
    unfold normalize_output_schema
    dsimp only
    rcases v with _ | b | n | f | sv | xs | flds
    · rw [hj]
    · rw [hj]
    · rw [hj]
    · rw [hj]
    · rw [hj]
    · rw [hj]
    · exact absurd rfl (hne flds)
  · intro s h
    unfold normalize_output_schema
    dsimp only
    rw [h]
  · intro cfg u up st ai ps t http s m hn
    have key := agentic_tool_schema_error cfg u up (some (SchemaArg.str s)) st ai ps t http m hn
    exact ⟨key, by rw [key]; rfl⟩

/-- C6 witness: the theorem applied at the spec's concrete inputs, including
the tool-level error return with no network call. -/
theorem spec_c6_witness :
    normalize_output_schema (some (SchemaArg.str "\x7b\"a\":1\x7d")) =
      Except.ok (some [("a", Json.num 1)]) ∧
    (agentic_scrapper (some cfgEx) "https://example.com" none
        (some (SchemaArg.str "not json")) none none none none oracle200 =
      (ToolResult.returns (Json.obj [("error", Json.str invalidSchemaMsg)]),
       [Event.clientCreated cfgEx.api_key, Event.clientClosed]) ∧
     noNetworkCall (agentic_scrapper (some cfgEx) "https://example.com" none
        (some (SchemaArg.str "not json")) none none none none oracle200).2 = true) :=
  ⟨spec_c6_schema_normalization.1 "\x7b\"a\":1\x7d" [("a", Json.num 1)] rfl,
   spec_c6_schema_normalization.2.2.2.1 cfgEx "https://example.com" none none none none none
     oracle200 "not json" invalidSchemaMsg rfl⟩

/-- C3 (confirmed): for every operation, a non-2xx response makes the tool
return `\x7berror: msg\x7d` with the numeric status code contained in the
message, and the error never escapes the tool boundary uncaught: the
`!= 200` family raises a generic `Exception` caught by `except Exception`,
and the `raise_for_status` family raises `httpx.HTTPStatusError`, which the
narrower `except httpx.HTTPError` handlers also catch. -/
theorem spec_c3_non2xx_error_object (cfg : ScapeGraphConfig) (r : HttpResponse)
    (h : ¬(200 ≤ r.status ∧ r.status < 300))
    (u w up p rid : String) (ups : Option String) (nr ns d mp : Option Int)
    (mo rjs sdo ai ps : Option Bool) (od : Option (List (String × Json)))
    (st : Option StepsArg) (t : Option Rat) :
    errorWithStatus (markdownify (some cfg) u (fun _ => HttpOutcome.response r)).1 r.status = true ∧
    errorWithStatus (smartscraper (some cfg) up w ns mo (fun _ => HttpOutcome.response r)).1 r.status = true ∧
    errorWithStatus (searchscraper (some cfg) up nr ns (fun _ => HttpOutcome.response r)).1 r.status = true ∧
    errorWithStatus (smartcrawler_initiate (some cfg) u (some p) "ai" d mp sdo
      (fun _ => HttpOutcome.response r)).1 r.status = true ∧
    errorWithStatus (smartcrawler_fetch_results (some cfg) rid
      (fun _ => HttpOutcome.response r)).1 r.status = true ∧
    errorWithStatus (scrape (some cfg) w rjs (fun _ => HttpOutcome.response r)).1 r.status = true ∧
    errorWithStatus (sitemap (some cfg) w (fun _ => HttpOutcome.response r)).1 r.status = true ∧
    errorWithStatus (agentic_scrapper (some cfg) u ups (od.map SchemaArg.dict) st ai ps t
      (fun _ => HttpOutcome.response r)).1 r.status = true := by
  have hne : r.status ≠ 200 := by omega
  have h2xx : is2xx r.status = false := by
    simp only [is2xx, Bool.and_eq_false_iff, decide_eq_false_iff_not]
    omega
  refine ⟨?_, ?_, ?_, ?_, ?_, ?_, ?_, ?_⟩
  · have hb : ScapeGraphClient.markdownify cfg u (fun _ => HttpOutcome.response r) =
        (Except.error (PyError.exception (error200Msg r.status r.text)),
         [Event.networkCall (mkPost "/markdownify" cfg (markdownify_body u))]) :=
      exchange200_non200 _ _ r rfl hne
    have ht := runTool_caught cfg catchesAll PyError.msg
      (fun cfg http => ScapeGraphClient.markdownify cfg u http)
      (fun _ => HttpOutcome.response r) _ _ hb rfl
    unfold markdownify
    rw [ht]
    exact error200Msg_contains r.status r.text
  · have hb : ScapeGraphClient.smartscraper cfg up w ns mo (fun _ => HttpOutcome.response r) =
        (Except.error (PyError.exception (error200Msg r.status r.text)),
         [Event.networkCall (mkPost "/smartscraper" cfg (smartscraper_body up w ns mo))]) :=
      exchange200_non200 _ _ r rfl hne
    have ht := runTool_caught cfg catchesAll PyError.msg
      (fun cfg http => ScapeGraphClient.smartscraper cfg up w ns mo http)
      (fun _ => HttpOutcome.response r) _ _ hb rfl
    unfold smartscraper
    rw [ht]
    exact error200Msg_contains r.status r.text
  · have hb : ScapeGraphClient.searchscraper cfg up nr ns (fun _ => HttpOutcome.response r) =
        (Except.error (PyError.exception (error200Msg r.status r.text)),
         [Event.networkCall (mkPost "/searchscraper" cfg (searchscraper_body up nr ns))]) :=
      exchange200_non200 _ _ r rfl hne
    have ht := runTool_caught cfg catchesAll PyError.msg
      (fun cfg http => ScapeGraphClient.searchscraper cfg up nr ns http)
      (fun _ => HttpOutcome.response r) _ _ hb rfl
    unfold searchscraper
    rw [ht]
    exact error200Msg_contains r.status r.text
  · have hb : ScapeGraphClient.smartcrawler_initiate cfg u (some p) "ai" d mp sdo
        (fun _ => HttpOutcome.response r) =
        (Except.error (PyError.exception (error200Msg r.status r.text)),
         [Event.networkCall (mkPost "/crawl" cfg ([("url", Json.str u)] ++ [("prompt", Json.str p)]
           ++ optField "depth" (d.map Json.num)
           ++ optField "max_pages" (mp.map Json.num)
           ++ optField "same_domain_only" (sdo.map Json.bool)))]) := by
      unfold ScapeGraphClient.smartcrawler_initiate
      rw [smartcrawler_body_ai]
      exact exchange200_non200 _ _ r rfl hne
    have ht := runTool_caught cfg catchesAll PyError.msg
      (fun cfg http => ScapeGraphClient.smartcrawler_initiate cfg u (some p) "ai" d mp sdo http)
      (fun _ => HttpOutcome.response r) _ _ hb rfl
    unfold smartcrawler_initiate
    rw [ht]
    exact error200Msg_contains r.status r.text
  · have hb : ScapeGraphClient.smartcrawler_fetch_results cfg rid (fun _ => HttpOutcome.response r) =
        (Except.error (PyError.exception (error200Msg r.status r.text)),
         [Event.networkCall (mkGet ("/crawl/" ++ rid) cfg)]) :=
      exchange200_non200 _ _ r rfl hne
    have ht := runTool_caught cfg catchesAll PyError.msg
      (fun cfg http => ScapeGraphClient.smartcrawler_fetch_results cfg rid http)
      (fun _ => HttpOutcome.response r) _ _ hb rfl
    unfold smartcrawler_fetch_results
    rw [ht]
    exact error200Msg_contains r.status r.text
  · have hb : ScapeGraphClient.scrape cfg w rjs (fun _ => HttpOutcome.response r) =
        (Except.error (PyError.httpStatusError
           (raiseForStatusMsg r.status (mkPost "/scrape" cfg (scrape_body w rjs)).url)),
         [Event.networkCall (mkPost "/scrape" cfg (scrape_body w rjs))]) :=
      exchangeRaise_non2xx _ _ r rfl h2xx
    have ht := runTool_caught cfg catchesHttpOrValue PyError.msg
      (fun cfg http => ScapeGraphClient.scrape cfg w rjs http)
      (fun _ => HttpOutcome.response r) _ _ hb rfl
    unfold scrape
    rw [ht]
    exact raiseForStatusMsg_contains r.status _
  · have hb : ScapeGraphClient.sitemap cfg w (fun _ => HttpOutcome.response r) =
        (Except.error (PyError.httpStatusError
           (raiseForStatusMsg r.status (mkPost "/sitemap" cfg (sitemap_body w)).url)),
         [Event.networkCall (mkPost "/sitemap" cfg (sitemap_body w))]) :=
      exchangeRaise_non2xx _ _ r rfl h2xx
    have ht := runTool_caught cfg catchesHttpOrValue PyError.msg
      (fun cfg http => ScapeGraphClient.sitemap cfg w http)
      (fun _ => HttpOutcome.response r) _ _ hb rfl
    unfold sitemap
    rw [ht]
    exact raiseForStatusMsg_contains r.status _
  · have hteq := agentic_tool_eq_runTool cfg u ups (od.map SchemaArg.dict) st ai ps t
      (fun _ => HttpOutcome.response r) od (normalize_output_schema_dict od)
    have hb : ScapeGraphClient.agentic_scrapper cfg u ups od (normalize_steps st) ai ps t
        (fun _ => HttpOutcome.response r) =
        (Except.error (PyError.httpStatusError
           (raiseForStatusMsg r.status (mkPostTimeout "/agentic-scrapper" cfg
             (agentic_body u ups od (normalize_steps st) ai ps) t).url)),
         [Event.networkCall (mkPostTimeout "/agentic-scrapper" cfg
           (agentic_body u ups od (normalize_steps st) ai ps) t)]) :=
      exchangeRaise_non2xx _ _ r rfl h2xx
    have ht := runTool_caught cfg catchesHttpOrValue agenticFmt
      (fun cfg http => ScapeGraphClient.agentic_scrapper cfg u ups od (normalize_steps st) ai ps t http)
      (fun _ => HttpOutcome.response r) _ _ hb rfl
    rw [hteq, ht]
    exact raiseForStatusMsg_contains r.status _

/-- C3 witness: a concrete 404 response on a `!= 200`-family operation and on
a `raise_for_status`-family operation. -/
theorem spec_c3_witness :
    errorWithStatus (markdownify (some cfgEx) "https://example.com"
      (fun _ => HttpOutcome.response (HttpResponse.mk 404 "Not Found" Json.null))).1 404 = true ∧
    errorWithStatus (scrape (some cfgEx) "https://example.com" none
      (fun _ => HttpOutcome.response (HttpResponse.mk 404 "Not Found" Json.null))).1 404 = true := by
  have h := spec_c3_non2xx_error_object cfgEx (HttpResponse.mk 404 "Not Found" Json.null)
    (by decide) "https://example.com" "https://example.com" "find things" "list headings" "rid"
    none none none none none none none none none none none none none
  exact ⟨h.1, h.2.2.2.2.2.1⟩

/-- C8 (confirmed): every outbound request issued during any tool invocation
carries the `SGAI-APIKEY` header set to the configured key and the
`Content-Type: application/json` header — for every operation, every
parameter set and every oracle. -/
theorem spec_c8_headers_on_every_request (cfg : ScapeGraphConfig) (u w up _p rid : String)
    (pr : Option String) (mode : String) (ups : Option String) (nr ns d mp : Option Int)
    (mo rjs sdo ai ps : Option Bool) (os : Option SchemaArg) (st : Option StepsArg)
    (t : Option Rat) (http : Oracle) :
    allRequestsAuthed cfg.api_key (markdownify (some cfg) u http).2 = true ∧
    allRequestsAuthed cfg.api_key (smartscraper (some cfg) up w ns mo http).2 = true ∧
    allRequestsAuthed cfg.api_key (searchscraper (some cfg) up nr ns http).2 = true ∧
    allRequestsAuthed cfg.api_key (smartcrawler_initiate (some cfg) u pr mode d mp sdo http).2 = true ∧
    allRequestsAuthed cfg.api_key (smartcrawler_fetch_results (some cfg) rid http).2 = true ∧
    allRequestsAuthed cfg.api_key (scrape (some cfg) w rjs http).2 = true ∧
    allRequestsAuthed cfg.api_key (sitemap (some cfg) w http).2 = true ∧
    allRequestsAuthed cfg.api_key (agentic_scrapper (some cfg) u ups os st ai ps t http).2 = true := by
  refine ⟨?_, ?_, ?_, ?_, ?_, ?_, ?_, ?_⟩
  · unfold markdownify
    apply allRequestsAuthed_runTool
    simp [ScapeGraphClient.markdownify, exchange200, allRequestsAuthed, mkPost, headersOk_clientHeaders]
  · unfold smartscraper
    apply allRequestsAuthed_runTool
    simp [ScapeGraphClient.smartscraper, exchange200, allRequestsAuthed, mkPost, headersOk_clientHeaders]
  · unfold searchscraper
    apply allRequestsAuthed_runTool
    simp [ScapeGraphClient.searchscraper, exchange200, allRequestsAuthed, mkPost, headersOk_clientHeaders]
  · unfold smartcrawler_initiate
    apply allRequestsAuthed_runTool
    unfold ScapeGraphClient.smartcrawler_initiate
    split
    · rfl
    · simp [exchange200, allRequestsAuthed, mkPost, headersOk_clientHeaders]
  · unfold smartcrawler_fetch_results
    apply allRequestsAuthed_runTool
    simp [ScapeGraphClient.smartcrawler_fetch_results, exchange200, allRequestsAuthed, mkGet, headersOk_clientHeaders]
  · unfold scrape
    apply allRequestsAuthed_runTool
    simp [ScapeGraphClient.scrape, exchangeRaise, allRequestsAuthed, mkPost, headersOk_clientHeaders]
  · unfold sitemap
    apply allRequestsAuthed_runTool
    simp [ScapeGraphClient.sitemap, exchangeRaise, allRequestsAuthed, mkPost, headersOk_clientHeaders]
  · rcases hn : normalize_output_schema os with m | nos
    · rw [agentic_tool_schema_error cfg u ups os st ai ps t http m hn]
      rfl
    · rw [agentic_tool_eq_runTool cfg u ups os st ai ps t http nos hn]
      apply allRequestsAuthed_runTool
      simp [ScapeGraphClient.agentic_scrapper, exchangeRaise, allRequestsAuthed, mkPostTimeout, headersOk_clientHeaders]

/-- C9 (confirmed): every tool invocation constructs exactly one fresh
`ScapeGraphClient` from the call-time session configuration (the first trace
event is its construction with that configuration's key, and it is the only
construction in the trace — so no client or pool outlives or is shared
across invocations), and whenever the tool returns (the success path and
every handled error path), the client was closed: the trace ends with
`client.close()`, which happens exactly once. -/
theorem spec_c9_client_lifecycle (cfg : ScapeGraphConfig) (u w up _p rid : String)
    (pr : Option String) (mode : String) (ups : Option String) (nr ns d mp : Option Int)
    (mo rjs sdo ai ps : Option Bool) (os : Option SchemaArg) (st : Option StepsArg)
    (t : Option Rat) (http : Oracle) :
    ((markdownify (some cfg) u http).2.head? = some (Event.clientCreated cfg.api_key) ∧
     createdCount (markdownify (some cfg) u http).2 = 1 ∧
     ∀ v, (markdownify (some cfg) u http).1 = ToolResult.returns v →
       (markdownify (some cfg) u http).2.getLast? = some Event.clientClosed ∧
       closedCount (markdownify (some cfg) u http).2 = 1) ∧
    ((smartscraper (some cfg) up w ns mo http).2.head? = some (Event.clientCreated cfg.api_key) ∧
     createdCount (smartscraper (some cfg) up w ns mo http).2 = 1 ∧
     ∀ v, (smartscraper (some cfg) up w ns mo http).1 = ToolResult.returns v →
       (smartscraper (some cfg) up w ns mo http).2.getLast? = some Event.clientClosed ∧
       closedCount (smartscraper (some cfg) up w ns mo http).2 = 1) ∧
    ((searchscraper (some cfg) up nr ns http).2.head? = some (Event.clientCreated cfg.api_key) ∧
     createdCount (searchscraper (some cfg) up nr ns http).2 = 1 ∧
     ∀ v, (searchscraper (some cfg) up nr ns http).1 = ToolResult.returns v →
       (searchscraper (some cfg) up nr ns http).2.getLast? = some Event.clientClosed ∧
       closedCount (searchscraper (some cfg) up nr ns http).2 = 1) ∧
    ((smartcrawler_initiate (some cfg) u pr mode d mp sdo http).2.head? =
        some (Event.clientCreated cfg.api_key) ∧
     createdCount (smartcrawler_initiate (some cfg) u pr mode d mp sdo http).2 = 1 ∧
     ∀ v, (smartcrawler_initiate (some cfg) u pr mode d mp sdo http).1 = ToolResult.returns v →
       (smartcrawler_initiate (some cfg) u pr mode d mp sdo http).2.getLast? =
         some Event.clientClosed ∧
       closedCount (smartcrawler_initiate (some cfg) u pr mode d mp sdo http).2 = 1) ∧
    ((smartcrawler_fetch_results (some cfg) rid http).2.head? =
        some (Event.clientCreated cfg.api_key) ∧
     createdCount (smartcrawler_fetch_results (some cfg) rid http).2 = 1 ∧
     ∀ v, (smartcrawler_fetch_results (some cfg) rid http).1 = ToolResult.returns v →
       (smartcrawler_fetch_results (some cfg) rid http).2.getLast? = some Event.clientClosed ∧
       closedCount (smartcrawler_fetch_results (some cfg) rid http).2 = 1) ∧
    ((scrape (some cfg) w rjs http).2.head? = some (Event.clientCreated cfg.api_key) ∧
     createdCount (scrape (some cfg) w rjs http).2 = 1 ∧
     ∀ v, (scrape (some cfg) w rjs http).1 = ToolResult.returns v →
       (scrape (some cfg) w rjs http).2.getLast? = some Event.clientClosed ∧
       closedCount (scrape (some cfg) w rjs http).2 = 1) ∧
    ((sitemap (some cfg) w http).2.head? = some (Event.clientCreated cfg.api_key) ∧
     createdCount (sitemap (some cfg) w http).2 = 1 ∧
     ∀ v, (sitemap (some cfg) w http).1 = ToolResult.returns v →
       (sitemap (some cfg) w http).2.getLast? = some Event.clientClosed ∧
       closedCount (sitemap (some cfg) w http).2 = 1) ∧
    ((agentic_scrapper (some cfg) u ups os st ai ps t http).2.head? =
        some (Event.clientCreated cfg.api_key) ∧
     createdCount (agentic_scrapper (some cfg) u ups os st ai ps t http).2 = 1 ∧
     ∀ v, (agentic_scrapper (some cfg) u ups os st ai ps t http).1 = ToolResult.returns v →
       (agentic_scrapper (some cfg) u ups os st ai ps t http).2.getLast? =
         some Event.clientClosed ∧
       closedCount (agentic_scrapper (some cfg) u ups os st ai ps t http).2 = 1) := by
  refine ⟨?_, ?_, ?_, ?_, ?_, ?_, ?_, ?_⟩
  · unfold markdownify
    exact runTool_lifecycle cfg _ _ _ http (markdownify_client_events cfg u http)
  · unfold smartscraper
    exact runTool_lifecycle cfg _ _ _ http (smartscraper_client_events cfg up w ns mo http)
  · unfold searchscraper
    exact runTool_lifecycle cfg _ _ _ http (searchscraper_client_events cfg up nr ns http)
  · unfold smartcrawler_initiate
    exact runTool_lifecycle cfg _ _ _ http (initiate_client_events cfg u pr mode d mp sdo http)
  · unfold smartcrawler_fetch_results
    exact runTool_lifecycle cfg _ _ _ http (fetch_client_events cfg rid http)
  · unfold scrape
    exact runTool_lifecycle cfg _ _ _ http (scrape_client_events cfg w rjs http)
  · unfold sitemap
    exact runTool_lifecycle cfg _ _ _ http (sitemap_client_events cfg w http)
  · rcases hn : normalize_output_schema os with m | nos
    · rw [agentic_tool_schema_error cfg u ups os st ai ps t http m hn]
      exact ⟨rfl, rfl, fun v hv => ⟨rfl, rfl⟩⟩
    · rw [agentic_tool_eq_runTool cfg u ups os st ai ps t http nos hn]
      exact runTool_lifecycle cfg _ _ _ http
        (agentic_client_events cfg u ups nos (normalize_steps st) ai ps t http)

/-- C9 witness: a successful concrete `markdownify` call closes its client
at the end of the trace. -/
theorem spec_c9_witness :
    (markdownify (some cfgEx) "https://example.com" oracle200).2.getLast? =
      some Event.clientClosed ∧
    closedCount (markdownify (some cfgEx) "https://example.com" oracle200).2 = 1 := by
  have h := spec_c9_client_lifecycle cfgEx "https://example.com" "https://example.com"
    "find things" "list headings" "rid" none "ai" none none none none none none none none none
    none none none none oracle200
  exact h.1.2.2 (Json.obj []) rfl

/-- C10 (confirmed): the `!= 200` family (`markdownify`, `smartscraper`,
`searchscraper`, `smartcrawler_initiate`, `smartcrawler_fetch_results`)
succeeds exactly when the status is 200 — any other status, including other
2xx codes such as 201, raises — whereas the `raise_for_status` family
(`scrape`, `sitemap`, `agentic_scrapper`) succeeds exactly on 2xx statuses.
Concrete 201 contrasts included. -/
theorem spec_c10_status_code_policy (cfg : ScapeGraphConfig) (r : HttpResponse)
    (u w up p rid : String) (ups : Option String) (nr ns d mp : Option Int)
    (mo rjs sdo ai ps : Option Bool) (od : Option (List (String × Json)))
    (stj : Option (List Json)) (t : Option Rat) :
    exceptIsOk (ScapeGraphClient.markdownify cfg u (fun _ => HttpOutcome.response r)).1 =
      (r.status == 200) ∧
    exceptIsOk (ScapeGraphClient.smartscraper cfg up w ns mo (fun _ => HttpOutcome.response r)).1 =
      (r.status == 200) ∧
    exceptIsOk (ScapeGraphClient.searchscraper cfg up nr ns (fun _ => HttpOutcome.response r)).1 =
      (r.status == 200) ∧
    exceptIsOk (ScapeGraphClient.smartcrawler_initiate cfg u (some p) "ai" d mp sdo
      (fun _ => HttpOutcome.response r)).1 = (r.status == 200) ∧
    exceptIsOk (ScapeGraphClient.smartcrawler_fetch_results cfg rid
      (fun _ => HttpOutcome.response r)).1 = (r.status == 200) ∧
    exceptIsOk (ScapeGraphClient.scrape cfg w rjs (fun _ => HttpOutcome.response r)).1 =
      is2xx r.status ∧
    exceptIsOk (ScapeGraphClient.sitemap cfg w (fun _ => HttpOutcome.response r)).1 =
      is2xx r.status ∧
    exceptIsOk (ScapeGraphClient.agentic_scrapper cfg u ups od stj ai ps t
      (fun _ => HttpOutcome.response r)).1 = is2xx r.status ∧
    exceptIsOk (ScapeGraphClient.markdownify cfgEx "https://example.com" oracle201).1 = false ∧
    exceptIsOk (ScapeGraphClient.scrape cfgEx "https://example.com" none oracle201).1 = true := by
  have key200 : ∀ req : HttpRequest,
      exceptIsOk (exchange200 req (fun _ => HttpOutcome.response r)).1 = (r.status == 200) := by
    intro req
    by_cases h200 : r.status = 200
    · rw [exchange200_ok req _ r rfl h200, beq_iff_eq.mpr h200]
      rfl
    · rw [exchange200_non200 req _ r rfl h200, beq_eq_false_iff_ne.mpr h200]
      rfl
  have keyRaise : ∀ req : HttpRequest,
      exceptIsOk (exchangeRaise req (fun _ => HttpOutcome.response r)).1 = is2xx r.status := by
    intro req
    cases h2 : is2xx r.status
    · rw [exchangeRaise_non2xx req _ r rfl h2]
      rfl
    · rw [exchangeRaise_ok req _ r rfl h2]
      rfl
  refine ⟨key200 _, key200 _, key200 _, ?_, key200 _, keyRaise _, keyRaise _, keyRaise _, rfl, rfl⟩
  unfold ScapeGraphClient.smartcrawler_initiate
  rw [smartcrawler_body_ai]
  exact key200 _
